import Mathlib

/-
Shallow embedding of packages/jest-cli/src/runJest.js: the run controller
that discovers test paths across contexts, builds no-match diagnostics,
adjusts verbosity for single-test runs, dispatches to the execution
backend, persists results into the sequencer, and post-processes the
aggregated result.  Effectful steps are modelled by returning an explicit
event trace next to the computed value; external collaborators
(SearchSource, TestSequencer, TestRunner, jest-util, node path/fs) are
injected through an environment record.
-/

namespace RunJestModel

/-- A JavaScript-style return value: the controller can return `null`
(list-tests short-circuit), `undefined` (the value of
`onComplete && onComplete(r)` when `onComplete` is absent), or a real
value produced by the completion callback. -/
inductive JSResult (A : Type) where
  | jsNull : JSResult A
  | jsUndefined : JSResult A
  | value : A → JSResult A
deriving DecidableEq

/-- A configuration value looked up by statistic key (`config[key]`):
either a string-valued option or an array of strings (e.g. `roots`). -/
inductive ConfigValue where
  | str : String → ConfigValue
  | strList : List String → ConfigValue
deriving DecidableEq

/-- JavaScript truthiness of a config value: an empty string is falsy,
any array (empty included) is truthy. -/
def ConfigValue.truthy : ConfigValue → Bool
  | .str s => !(s == "")
  | .strList _ => true

/-- Template-literal rendering of a config value (`${value}`): a string
renders as itself, an array joins its elements with commas. -/
def ConfigValue.display : ConfigValue → String
  | .str s => s
  | .strList l => String.intercalate "," l

/-- A per-context project configuration, restricted to the fields this
file reads: `roots`, `rootDir`, and the remaining statistic-keyed fields
as an association list. -/
structure Config where
  roots : List String
  rootDir : String
  extra : List (String × ConfigValue)
deriving DecidableEq

/-- `config[key]` for the statistic keys used by the diagnostics
builder. -/
def Config.lookup (c : Config) (key : String) : Option ConfigValue :=
  if key = "roots" then some (ConfigValue.strList c.roots)
  else if key = "rootDir" then some (ConfigValue.str c.rootDir)
  else c.extra.lookup key

/-- A project context: configuration plus metadata opaque to this file. -/
structure Context where
  config : Config
deriving DecidableEq

/-- A test descriptor: one schedulable (context, path) unit. -/
structure Test where
  context : Context
  path : String
deriving DecidableEq

/-- The selection pattern produced by `getTestPathPattern(argv)`,
restricted to the fields this file reads. -/
structure SelectionConfig where
  testPathPattern : Option String
  input : Option String
  shouldTreatInputAsPattern : Bool
  onlyChanged : Bool
  watch : Bool
deriving DecidableEq

/-- A per-context match set returned by `SearchSource.getTestPaths`:
the test list, the match statistics (possibly absent), the total number
of files checked, and the no-source-control flag. -/
structure MatchSet where
  tests : List Test
  stats : Option (List (String × Nat))
  total : Nat
  noSCM : Bool
deriving DecidableEq

/-- One entry of `testRunData`: a context paired with its match set
(the source calls the second field `matches`, a reserved word here). -/
structure TestRun where
  context : Context
  matchSet : MatchSet
deriving DecidableEq

/-- The global configuration, restricted to the fields this file reads.
`silent` and `verbose` are tri-state (unset / true / false) because the
code compares them with `!==`. -/
structure GlobalConfig where
  watch : Bool
  silent : Option Bool
  verbose : Option Bool
  testResultsProcessor : Option String
deriving DecidableEq

/-- The CLI arguments, restricted to the fields this file reads or that
the watch-all fallback rewrites. -/
structure Argv where
  watch : Bool
  watchAll : Bool
  onlyChanged : Bool
  noSCM : Bool
  listTests : Bool
  json : Bool
  outputFile : Option String
  testNamePattern : Option String
deriving DecidableEq

/-- The options object handed to `new TestRunner(globalConfig, options)`
(the opaque `startRun` hook is threaded through unmodelled). -/
structure RunnerOptions where
  maxWorkers : Nat
  pattern : SelectionConfig
  testNamePattern : Option String
  testPathPattern : String
deriving DecidableEq

/-- One observable effect of the controller.  `outLog` is
`new Console(outputStream, outputStream).log`, `globalConsoleLog` is the
global `console.log`, `stdoutWrite` is `process.stdout.write`,
`fileWrite` is `fs.writeFileSync`, and the `…Call` events record the
invocations of the host hooks and external collaborators. -/
inductive Event (R : Type) where
  | outLog : String → Event R
  | globalConsoleLog : String → Event R
  | stdoutWrite : String → Event R
  | fileWrite : String → String → Event R
  | printNoTestsCall : List TestRun → SelectionConfig → Event R
  | onCompleteCall : R → Event R
  | runTestsCall : GlobalConfig → RunnerOptions → List Test → Event R
  | cacheResultsCall : List Test → R → Event R
deriving DecidableEq

/-- The external collaborators consumed by the controller.  `R` is the
opaque aggregated-result type, `F` the opaque formatted-result type of
jest-util's `formatTestResults`. -/
structure Env (R F : Type) where
  search : Context → SelectionConfig → MatchSet
  getTestPathPattern : Argv → SelectionConfig
  getMaxWorkers : Argv → Nat
  sortTests : List Test → List Test
  runTests : GlobalConfig → RunnerOptions → List Test → R
  emptyAggregatedResult : R
  resolveProcessor : String → R → R
  formatTestResults : R → F
  stringifyFormatted : F → String
  cwd : String
  pathResolve : String → String → String
  pathRelative : String → String → String

/-- chalk.bold: wrap in the bold / reset-intensity ANSI codes. -/
def chalkBold (s : String) : String := "\x1b[1m" ++ s ++ "\x1b[22m"

/-- chalk.dim: wrap in the dim / reset-intensity ANSI codes. -/
def chalkDim (s : String) : String := "\x1b[2m" ++ s ++ "\x1b[22m"

/-- chalk.yellow: wrap in the yellow / default-foreground ANSI codes. -/
def chalkYellow (s : String) : String := "\x1b[33m" ++ s ++ "\x1b[39m"

/-- JavaScript truthiness of an optional string: absent and empty are
falsy. -/
def jsTruthyOptStr : Option String → Bool
  | none => false
  | some s => !(s == "")

/-- `formatTestPathPattern` (runJest.js lines 38-46). -/
def formatTestPathPattern (pattern : SelectionConfig) : String :=
  let testPattern := pattern.testPathPattern
  let input := pattern.input
  let formattedPattern := "/" ++ testPattern.getD "" ++ "/"
  let formattedInput :=
    if pattern.shouldTreatInputAsPattern then "/" ++ input.getD "" ++ "/"
    else "\"" ++ input.getD "" ++ "\""
  if input = testPattern then formattedInput else formattedPattern

/-- `pluralize(word, count, ending)` (runJest.js lines 62-63). -/
def pluralize (word : String) (count : Nat) (ending : String) : String :=
  toString count ++ " " ++ word ++ (if count = 1 then "" else ending)

/-- One line of the per-context statistics message (the body of the
`Object.keys(stats).map` callback, runJest.js lines 69-79), or `none`
when the callback returns null. -/
def statLine (config : Config) (key : String) (count : Nat) : Option String :=
  if key = "roots" ∧ config.roots.length = 1 then none
  else
    match Config.lookup config key with
    | some value =>
        if value.truthy then
          some ("  " ++ key ++ ": " ++ chalkYellow value.display ++ " - " ++
            pluralize "match" count "es")
        else none
    | none => none

/-- One per-context block of the no-tests-found message (the body of the
`testRunData.map` callback, runJest.js lines 65-92). -/
def noTestsContextReport (testRun : TestRun) : String :=
  let stats := testRun.matchSet.stats.getD []
  let config := testRun.context.config
  let statsMessage := String.intercalate "\n"
    (((stats.map (fun kv => statLine config kv.1 kv.2)).filterMap id).filter
      (fun line => !(line == "")))
  if testRun.matchSet.total ≠ 0 then
    "In " ++ chalkBold config.rootDir ++ "\n" ++
    "  " ++ pluralize "file" testRun.matchSet.total "s" ++ " checked.\n" ++
    statsMessage
  else
    "No files found in " ++ config.rootDir ++ ".\n" ++
    "Make sure Jest\x27s configuration does not exclude this directory." ++
    "\nTo set up Jest, make sure a package.json file exists.\n" ++
    "Jest Documentation: " ++
    "facebook.github.io/jest/docs/configuration.html"

/-- `getNoTestsFoundMessage` (runJest.js lines 48-100). -/
def getNoTestsFoundMessage (testRunData : List TestRun)
    (pattern : SelectionConfig) : String :=
  if pattern.onlyChanged then
    chalkBold "No tests found related to files changed since last commit.\n" ++
    chalkDim
      (if pattern.watch then
        "Press `a` to run all tests, or run Jest with `--watchAll`."
      else "Run Jest without `-o` to run all tests.")
  else
    chalkBold "No tests found" ++ "\n" ++
    String.intercalate "\n" (testRunData.map noTestsContextReport) ++ "\n" ++
    ("Pattern: " ++ chalkYellow (formatTestPathPattern pattern) ++ " - 0 matches")

/-- The fixed explanatory message written when changed-file selection
finds no source-control system (runJest.js lines 119-125). -/
def noSCMMessage : String :=
  "Jest can only find uncommitted changed files in a git or hg " ++
  "repository. If you make your project a git or hg " ++
  "repository (`git init` or `hg init`), Jest will be able " ++
  "to only run tests related to files changed since the last " ++
  "commit."

/-- JSON string escaping for the characters that occur in test paths
(`JSON.stringify` of a string element). -/
def jsonEscapeChar (c : Char) : String :=
  if c = '\"' then "\\\""
  else if c = '\\' then "\\\\"
  else if c = '\n' then "\\n"
  else if c = '\t' then "\\t"
  else if c = '\r' then "\\r"
  else String.singleton c

/-- `JSON.stringify` of one string. -/
def jsonQuote (s : String) : String :=
  "\"" ++ String.join (s.data.map jsonEscapeChar) ++ "\""

/-- `JSON.stringify` of an array of strings. -/
def jsonStringifyStrList (l : List String) : String :=
  "[" ++ String.intercalate "," (l.map jsonQuote) ++ "]"

/-- Modelled from the spec: `updateArgv(argv, watch-all mode, no-SCM)`
from packages/jest-cli/src/lib/updateArgv.js, which is not among the
given sources.  Per the spec it synthesizes the run-all selection:
switch the CLI arguments into watch-all mode, clear the changed-only
selection, and flag that SCM lookup should be skipped. -/
def updateArgvWatchAll (argv : Argv) : Argv :=
  { argv with
      watch := false
      watchAll := true
      onlyChanged := false
      noSCM := true }

/-- `getTestPaths` (runJest.js lines 102-130): query the search engine
for one context, with the changed-files fallback.  Returns the match set
together with the trace of console output. -/
def getTestPaths {R F : Type} (env : Env R F) (globalConfig : GlobalConfig)
    (context : Context) (pattern : SelectionConfig) (argv : Argv) :
    MatchSet × List (Event R) :=
  let data := env.search context pattern
  if data.tests.length = 0 then
    if pattern.onlyChanged && data.noSCM then
      if globalConfig.watch then
        let newPattern := env.getTestPathPattern (updateArgvWatchAll argv)
        (env.search context newPattern, [])
      else
        (data, [Event.outLog noSCMMessage])
    else (data, [])
  else (data, [])

/-- The options record handed to `processResults` (runJest.js
lines 236-241). -/
structure ProcessOptions (R A : Type) where
  isJSON : Bool
  onComplete : Option (R → A)
  outputFile : Option String
  testResultsProcessor : Option String

/-- The `testResultsProcessor` rewrite at the top of `processResults`
(runJest.js lines 133-136). -/
def applyResultsProcessor {R F : Type} (env : Env R F)
    (proc : Option String) (runResults : R) : R :=
  if jsTruthyOptStr proc then env.resolveProcessor (proc.getD "") runResults
  else runResults

/-- `processResults` (runJest.js lines 132-154): apply the optional
external processor, emit the JSON serialization to a file or to stdout,
and invoke the completion callback.  Returns the controller result
(`undefined` when no callback is supplied, mirroring
`options.onComplete && options.onComplete(runResults)`) and the trace. -/
def processResults {R F A : Type} (env : Env R F) (runResults : R)
    (options : ProcessOptions R A) : JSResult A × List (Event R) :=
  let finalResults := applyResultsProcessor env options.testResultsProcessor runResults
  let jsonEvents : List (Event R) :=
    if options.isJSON then
      if jsTruthyOptStr options.outputFile then
        let outputFile := env.pathResolve env.cwd (options.outputFile.getD "")
        [Event.fileWrite outputFile
          (env.stringifyFormatted (env.formatTestResults finalResults)),
         Event.stdoutWrite ("Test results written to: " ++
           env.pathRelative env.cwd outputFile ++ "\n")]
      else
        [Event.stdoutWrite
          (env.stringifyFormatted (env.formatTestResults finalResults))]
    else []
  match options.onComplete with
  | some f => (JSResult.value (f finalResults),
      jsonEvents ++ [Event.onCompleteCall finalResults])
  | none => (JSResult.jsUndefined, jsonEvents)

/-- The per-context discovery fan-out (the `Promise.all` over
`contexts.map`, runJest.js lines 179-191): the `testRunData` list and
the concatenated per-context traces.  The embedding serializes the
fan-out in context order, the order in which the concatenation observes
the settled per-context results. -/
def runDiscovery {R F : Type} (env : Env R F) (globalConfig : GlobalConfig)
    (contexts : List Context) (pattern : SelectionConfig) (argv : Argv) :
    List TestRun × List (Event R) :=
  (contexts.map (fun context =>
    { context := context
      matchSet := (getTestPaths env globalConfig context pattern argv).1 }),
   (contexts.map (fun context =>
     (getTestPaths env globalConfig context pattern argv).2)).flatten)

/-- The combined pre-sequencing test list: the concatenation
`allTests = allTests.concat(matches.tests)` over all contexts
(runJest.js line 188). -/
def preSequenceTests (testRunData : List TestRun) : List Test :=
  (testRunData.map (fun testRun => testRun.matchSet.tests)).flatten

/-- The sequenced test list `sequencer.sort(allTests)` as it stands at
runJest.js line 193. -/
def sequencedTests {R F : Type} (env : Env R F) (globalConfig : GlobalConfig)
    (contexts : List Context) (argv : Argv) : List Test :=
  env.sortTests
    (preSequenceTests
      (runDiscovery env globalConfig contexts (env.getTestPathPattern argv) argv).1)

/-- The zero-match diagnostics branch (runJest.js lines 201-208): the
events emitted when the sequenced list is empty. -/
def noMatchEvents {R : Type} (testRunData : List TestRun)
    (pattern : SelectionConfig) (hasPrintNoTestsHook : Bool) (numTests : Nat) :
    List (Event R) :=
  if numTests = 0 then
    if hasPrintNoTestsHook then [Event.printNoTestsCall testRunData pattern]
    else [Event.outLog (getNoTestsFoundMessage testRunData pattern)]
  else []

/-- The single-match verbosity branch (runJest.js lines 209-218): the
global configuration after the zero/one/many branch, a full frozen copy
with `verbose` forced on exactly when one test was selected, `silent`
is not `true` and `verbose` is not `false`. -/
def verboseAdjustedConfig (globalConfig : GlobalConfig) (numTests : Nat) :
    GlobalConfig :=
  if numTests = 0 then globalConfig
  else if numTests = 1 ∧ globalConfig.silent ≠ some true ∧
      globalConfig.verbose ≠ some false then
    { globalConfig with verbose := some true }
  else globalConfig

/-- `setConfig(contexts, newConfig)` (runJest.js lines 30-36)
specialized to its single call site, the rootDir normalization of
line 224: every context gets a fresh frozen config whose `rootDir` is
the current working directory. -/
def setConfig (contexts : List Context) (newRootDir : String) : List Context :=
  contexts.map (fun context =>
    { context with config := { context.config with rootDir := newRootDir } })

/-- The options handed to `new TestRunner` (runJest.js lines 226-231). -/
def execRunnerOptions {R F : Type} (env : Env R F) (argv : Argv) : RunnerOptions :=
  { maxWorkers := env.getMaxWorkers argv
    pattern := env.getTestPathPattern argv
    testNamePattern := argv.testNamePattern
    testPathPattern := formatTestPathPattern (env.getTestPathPattern argv) }

/-- The global configuration in force when the execution backend is
invoked. -/
def execGlobalConfig {R F : Type} (env : Env R F) (globalConfig : GlobalConfig)
    (contexts : List Context) (argv : Argv) : GlobalConfig :=
  verboseAdjustedConfig globalConfig (sequencedTests env globalConfig contexts argv).length

/-- The aggregated result returned by the execution backend
(runJest.js lines 226-232). -/
def execResults {R F : Type} (env : Env R F) (globalConfig : GlobalConfig)
    (contexts : List Context) (argv : Argv) : R :=
  env.runTests (execGlobalConfig env globalConfig contexts argv)
    (execRunnerOptions env argv) (sequencedTests env globalConfig contexts argv)

/-- `runJest` (runJest.js lines 156-242): the run controller.  The
opaque watch/cancellation token is threaded through to the backend
unread and is omitted; the optional `printNoTestsMessage` host hook is
modelled by its presence flag plus a trace event recording its
arguments.  Returns the controller's overall result and the trace. -/
def runJest {R F A : Type} (env : Env R F) (globalConfig : GlobalConfig)
    (contexts : List Context) (argv : Argv) (onComplete : Option (R → A))
    (hasPrintNoTestsHook : Bool) : JSResult A × List (Event R) :=
  let testSelectionConfig := env.getTestPathPattern argv
  let discovery := runDiscovery env globalConfig contexts testSelectionConfig argv
  let allTests := env.sortTests (preSequenceTests discovery.1)
  if argv.listTests then
    (JSResult.jsNull,
     discovery.2 ++
       Event.globalConsoleLog (jsonStringifyStrList (allTests.map Test.path)) ::
       (match onComplete with
        | some _ => [Event.onCompleteCall env.emptyAggregatedResult]
        | none => ([] : List (Event R))))
  else
    let branchEvents :=
      noMatchEvents discovery.1 testSelectionConfig hasPrintNoTestsHook allTests.length
    let globalConfig2 := verboseAdjustedConfig globalConfig allTests.length
    let _normalizedContexts := setConfig contexts env.cwd
    let runnerOptions : RunnerOptions :=
      { maxWorkers := env.getMaxWorkers argv
        pattern := testSelectionConfig
        testNamePattern := argv.testNamePattern
        testPathPattern := formatTestPathPattern testSelectionConfig }
    let results := env.runTests globalConfig2 runnerOptions allTests
    let processOut := processResults env results
      { isJSON := argv.json
        onComplete := onComplete
        outputFile := argv.outputFile
        testResultsProcessor := globalConfig2.testResultsProcessor }
    (processOut.1,
     discovery.2 ++ branchEvents ++
       Event.runTestsCall globalConfig2 runnerOptions allTests ::
       Event.cacheResultsCall allTests results ::
       processOut.2)

/-- The strings written through `process.stdout.write` in a trace. -/
def stdoutWrites {R : Type} (events : List (Event R)) : List String :=
  events.filterMap (fun e =>
    match e with
    | Event.stdoutWrite s => some s
    | _ => none)

/-- The (path, contents) pairs written through `fs.writeFileSync` in a
trace. -/
def fileWrites {R : Type} (events : List (Event R)) : List (String × String) :=
  events.filterMap (fun e =>
    match e with
    | Event.fileWrite p c => some (p, c)
    | _ => none)

/-- The aggregated results passed to the completion callback in a
trace. -/
def onCompleteCalls {R : Type} (events : List (Event R)) : List R :=
  events.filterMap (fun e =>
    match e with
    | Event.onCompleteCall r => some r
    | _ => none)

/-! Helper lemmas shared by the claim theorems. -/

lemma slash_ne_quote (s t : String) :
    ("/" ++ s ++ "/" : String) ≠ "\"" ++ t ++ "\"" := by
  intro h
  have h2 := congrArg String.data h
  rw [String.data_append, String.data_append, String.data_append,
    String.data_append] at h2
  have hs : ("/" : String).data = ['/'] := rfl
  have hq : ("\"" : String).data = ['\"'] := rfl
  rw [hs, hq] at h2
  simp at h2

lemma statLine_roots_none_iff (config : Config) (count : Nat) :
    statLine config "roots" count = none ↔ config.roots.length = 1 := by
  by_cases h : config.roots.length = 1
  · simp [statLine, h]
  · simp [statLine, h, Config.lookup, ConfigValue.truthy]

/-! Concrete sample data used by the witnesses and counterexamples. -/

def sampleConfig : Config :=
  { roots := ["/repo/src"], rootDir := "/repo", extra := [] }

def sampleContext : Context := { config := sampleConfig }

def sampleTest : Test := { context := sampleContext, path := "/repo/a.test.js" }

def samplePattern : SelectionConfig :=
  { testPathPattern := some "a"
    input := some "a"
    shouldTreatInputAsPattern := false
    onlyChanged := false
    watch := false }

def sampleChangedPattern : SelectionConfig := { samplePattern with onlyChanged := true }

def emptyNoSCMMatchSet : MatchSet :=
  { tests := [], stats := none, total := 0, noSCM := true }

def singleMatchSet : MatchSet :=
  { tests := [sampleTest], stats := none, total := 1, noSCM := false }

def sampleArgv : Argv :=
  { watch := false
    watchAll := false
    onlyChanged := false
    noSCM := false
    listTests := false
    json := false
    outputFile := none
    testNamePattern := none }

def sampleListArgv : Argv := { sampleArgv with listTests := true }

def sampleGlobalConfig : GlobalConfig :=
  { watch := false, silent := none, verbose := none, testResultsProcessor := none }

def sampleEnv : Env Nat Nat :=
  { search := fun _ _ => singleMatchSet
    getTestPathPattern := fun _ => samplePattern
    getMaxWorkers := fun _ => 2
    sortTests := fun tests => tests
    runTests := fun _ _ _ => 7
    emptyAggregatedResult := 0
    resolveProcessor := fun _ r => r + 1
    formatTestResults := fun r => r
    stringifyFormatted := fun n => toString n
    cwd := "/repo"
    pathResolve := fun c f => c ++ "/" ++ f
    pathRelative := fun _ f => f }

def sampleEnvNoSCM : Env Nat Nat :=
  { sampleEnv with search := fun _ _ => emptyNoSCMMatchSet }

/-! Claim theorems. -/

/-- C6: for every selection pattern, `formatTestPathPattern` returns the
quoted-input form exactly when `input === testPathPattern` and the
pattern is not flagged "treat input as pattern"; in every other case it
returns the slash-delimited form (which, input and pattern being equal
whenever the flag applies, is always `/<testPathPattern>/`). -/
theorem formatTestPathPattern_quoted_iff (p : SelectionConfig) :
    (formatTestPathPattern p = "\"" ++ p.input.getD "" ++ "\"" ↔
      p.input = p.testPathPattern ∧ p.shouldTreatInputAsPattern = false) ∧
    (¬(p.input = p.testPathPattern ∧ p.shouldTreatInputAsPattern = false) →
      formatTestPathPattern p = "/" ++ p.testPathPattern.getD "" ++ "/") := by
  by_cases heq : p.input = p.testPathPattern
  · by_cases hflag : p.shouldTreatInputAsPattern
    · constructor
      · simp only [formatTestPathPattern, heq, hflag, if_pos, if_true]
        constructor
        · intro h
          exact absurd h (slash_ne_quote _ _)
        · rintro ⟨-, h⟩
          simp [hflag] at h
      · intro _
        simp [formatTestPathPattern, heq, hflag]
    · constructor
      · simp [formatTestPathPattern, heq, hflag]
      · intro h
        exact absurd ⟨heq, by simp [hflag]⟩ h
  · constructor
    · constructor
      · intro h
        simp only [formatTestPathPattern, if_neg heq] at h
        exact absurd h (slash_ne_quote _ _)
      · rintro ⟨h, -⟩
        exact absurd h heq
    · intro _
      simp [formatTestPathPattern, heq]

/-- C9: with the changed-only branch off, the no-tests message is
exactly one bold "No tests found" header, the newline-joined list of
exactly one block per context, and one footer line with the formatted
pattern and "0 matches"; and within a block the statistic keyed `roots`
is suppressed exactly when the context config has exactly one root. -/
theorem getNoTestsFoundMessage_shape (testRunData : List TestRun)
    (pattern : SelectionConfig)
    (honly : pattern.onlyChanged = false)
    (_hempty : ∀ tr ∈ testRunData, tr.matchSet.tests = []) :
    getNoTestsFoundMessage testRunData pattern =
      chalkBold "No tests found" ++ "\n" ++
      String.intercalate "\n" (testRunData.map noTestsContextReport) ++ "\n" ++
      ("Pattern: " ++ chalkYellow (formatTestPathPattern pattern) ++
        " - 0 matches") ∧
    (testRunData.map noTestsContextReport).length = testRunData.length ∧
    (∀ config count, statLine config "roots" count = none ↔
      config.roots.length = 1) := by
  refine ⟨?_, ?_, ?_⟩
  · simp [getNoTestsFoundMessage, honly]
  · exact List.length_map _ _
  · exact fun config count => statLine_roots_none_iff config count

/-- Witness for C9 at one context with an empty match set. -/
theorem getNoTestsFoundMessage_shape_witness :
    (samplePattern.onlyChanged = false ∧
      ∀ tr ∈ [TestRun.mk sampleContext emptyNoSCMMatchSet],
        tr.matchSet.tests = []) ∧
    (getNoTestsFoundMessage [TestRun.mk sampleContext emptyNoSCMMatchSet]
        samplePattern =
      chalkBold "No tests found" ++ "\n" ++
      String.intercalate "\n"
        ([TestRun.mk sampleContext emptyNoSCMMatchSet].map noTestsContextReport) ++
      "\n" ++
      ("Pattern: " ++ chalkYellow (formatTestPathPattern samplePattern) ++
        " - 0 matches") ∧
    ([TestRun.mk sampleContext emptyNoSCMMatchSet].map noTestsContextReport).length =
      [TestRun.mk sampleContext emptyNoSCMMatchSet].length ∧
    (∀ config count, statLine config "roots" count = none ↔
      config.roots.length = 1)) :=
  ⟨⟨rfl, by decide⟩,
    getNoTestsFoundMessage_shape [TestRun.mk sampleContext emptyNoSCMMatchSet]
      samplePattern rfl (by decide)⟩

/-- C3: when a context's discovery comes back empty under a changed-only
pattern with no source-control system detected, watch mode retries
discovery with the synthesized run-all pattern and writes nothing, while
non-watch mode writes the fixed git/hg message and keeps the original
empty match set without retrying. -/
theorem getTestPaths_noSCM_fallback {R F : Type} (env : Env R F)
    (globalConfig : GlobalConfig) (context : Context)
    (pattern : SelectionConfig) (argv : Argv)
    (hempty : (env.search context pattern).tests = [])
    (honly : pattern.onlyChanged = true)
    (hnoscm : (env.search context pattern).noSCM = true) :
    (globalConfig.watch = true →
      getTestPaths env globalConfig context pattern argv =
        (env.search context (env.getTestPathPattern (updateArgvWatchAll argv)),
         [])) ∧
    (globalConfig.watch = false →
      getTestPaths env globalConfig context pattern argv =
        (env.search context pattern, [Event.outLog noSCMMessage])) := by
  constructor <;> intro hwatch <;>
    simp [getTestPaths, hempty, honly, hnoscm, hwatch]

/-- Witness for C3: a no-SCM empty discovery without watch mode keeps
the empty match set and logs the explanatory message. -/
theorem getTestPaths_noSCM_fallback_witness :
    ((sampleEnvNoSCM.search sampleContext sampleChangedPattern).tests = [] ∧
      sampleChangedPattern.onlyChanged = true ∧
      (sampleEnvNoSCM.search sampleContext sampleChangedPattern).noSCM = true) ∧
    ((sampleGlobalConfig.watch = true →
      getTestPaths sampleEnvNoSCM sampleGlobalConfig sampleContext
          sampleChangedPattern sampleArgv =
        (sampleEnvNoSCM.search sampleContext
          (sampleEnvNoSCM.getTestPathPattern (updateArgvWatchAll sampleArgv)),
         [])) ∧
    (sampleGlobalConfig.watch = false →
      getTestPaths sampleEnvNoSCM sampleGlobalConfig sampleContext
          sampleChangedPattern sampleArgv =
        (sampleEnvNoSCM.search sampleContext sampleChangedPattern,
         [Event.outLog noSCMMessage]))) :=
  ⟨⟨rfl, rfl, rfl⟩,
    getTestPaths_noSCM_fallback sampleEnvNoSCM sampleGlobalConfig sampleContext
      sampleChangedPattern sampleArgv rfl rfl rfl⟩

/-- C2: the combined pre-sequencing test list is exactly the
concatenation of the per-context match sets' test lists in context
order, the occurrence count of every test descriptor is preserved (none
dropped, none duplicated by the controller), and that concatenation is
what the sequencer is handed. -/
theorem preSequenceTests_concat {R F : Type} (env : Env R F)
    (globalConfig : GlobalConfig) (contexts : List Context)
    (pattern : SelectionConfig) (argv : Argv) :
    preSequenceTests (runDiscovery env globalConfig contexts pattern argv).1 =
      (contexts.map (fun context =>
        (getTestPaths env globalConfig context pattern argv).1.tests)).flatten ∧
    (∀ t : Test,
      (preSequenceTests
        (runDiscovery env globalConfig contexts pattern argv).1).count t =
      (contexts.map (fun context =>
        ((getTestPaths env globalConfig context pattern argv).1.tests).count t)).sum) ∧
    sequencedTests env globalConfig contexts argv =
      env.sortTests ((contexts.map (fun context =>
        (getTestPaths env globalConfig context
          (env.getTestPathPattern argv) argv).1.tests)).flatten) := by
  have hconcat : ∀ (p : SelectionConfig),
      preSequenceTests (runDiscovery env globalConfig contexts p argv).1 =
        (contexts.map (fun context =>
          (getTestPaths env globalConfig context p argv).1.tests)).flatten := by
    intro p
    simp [preSequenceTests, runDiscovery, List.map_map, Function.comp_def]
  refine ⟨hconcat pattern, ?_, ?_⟩
  · intro t
    rw [hconcat pattern, List.count_flatten, List.map_map, Function.comp_def]
  · rw [sequencedTests, hconcat (env.getTestPathPattern argv)]

/-- The options record built at the `processResults` call site
(runJest.js lines 236-241). -/
def execProcessOptions {R F A : Type} (env : Env R F) (globalConfig : GlobalConfig)
    (contexts : List Context) (argv : Argv) (onComplete : Option (R → A)) :
    ProcessOptions R A :=
  { isJSON := argv.json
    onComplete := onComplete
    outputFile := argv.outputFile
    testResultsProcessor :=
      (execGlobalConfig env globalConfig contexts argv).testResultsProcessor }

lemma runJest_run_shape {R F A : Type} (env : Env R F) (globalConfig : GlobalConfig)
    (contexts : List Context) (argv : Argv) (onComplete : Option (R → A))
    (hasPrintNoTestsHook : Bool) (h : argv.listTests = false) :
    runJest env globalConfig contexts argv onComplete hasPrintNoTestsHook =
      ((processResults env (execResults env globalConfig contexts argv)
          (execProcessOptions env globalConfig contexts argv onComplete)).1,
       (runDiscovery env globalConfig contexts (env.getTestPathPattern argv) argv).2 ++
         noMatchEvents
           (runDiscovery env globalConfig contexts (env.getTestPathPattern argv) argv).1
           (env.getTestPathPattern argv) hasPrintNoTestsHook
           (sequencedTests env globalConfig contexts argv).length ++
         Event.runTestsCall (execGlobalConfig env globalConfig contexts argv)
           (execRunnerOptions env argv)
           (sequencedTests env globalConfig contexts argv) ::
         Event.cacheResultsCall (sequencedTests env globalConfig contexts argv)
           (execResults env globalConfig contexts argv) ::
         (processResults env (execResults env globalConfig contexts argv)
           (execProcessOptions env globalConfig contexts argv onComplete)).2) := by
  simp only [runJest, h, Bool.false_eq_true, if_false, execProcessOptions,
    execResults, execGlobalConfig, execRunnerOptions, sequencedTests]

lemma runJest_list_shape {R F A : Type} (env : Env R F) (globalConfig : GlobalConfig)
    (contexts : List Context) (argv : Argv) (onComplete : Option (R → A))
    (hasPrintNoTestsHook : Bool) (h : argv.listTests = true) :
    runJest env globalConfig contexts argv onComplete hasPrintNoTestsHook =
      (JSResult.jsNull,
       (runDiscovery env globalConfig contexts (env.getTestPathPattern argv) argv).2 ++
         Event.globalConsoleLog
           (jsonStringifyStrList
             ((sequencedTests env globalConfig contexts argv).map Test.path)) ::
         (match onComplete with
          | some _ => [Event.onCompleteCall env.emptyAggregatedResult]
          | none => ([] : List (Event R)))) := by
  simp only [runJest, h, if_true, sequencedTests]

lemma getTestPaths_trace_cases {R F : Type} (env : Env R F)
    (globalConfig : GlobalConfig) (context : Context)
    (pattern : SelectionConfig) (argv : Argv) :
    (getTestPaths env globalConfig context pattern argv).2 = [] ∨
    (getTestPaths env globalConfig context pattern argv).2 =
      [Event.outLog noSCMMessage] := by
  simp only [getTestPaths]
  split
  · split
    · split
      · exact Or.inl rfl
      · exact Or.inr rfl
    · exact Or.inl rfl
  · exact Or.inl rfl

lemma runDiscovery_trace_outLog {R F : Type} (env : Env R F)
    (globalConfig : GlobalConfig) (contexts : List Context)
    (pattern : SelectionConfig) (argv : Argv) :
    ∀ e ∈ (runDiscovery env globalConfig contexts pattern argv).2,
      e = Event.outLog noSCMMessage := by
  intro e he
  simp only [runDiscovery, List.mem_flatten, List.mem_map] at he
  obtain ⟨l, ⟨c, _, rfl⟩, hel⟩ := he
  rcases getTestPaths_trace_cases env globalConfig c pattern argv with hcase | hcase <;>
    rw [hcase] at hel
  · cases hel
  · simpa using hel

lemma noMatchEvents_cases {R : Type} (testRunData : List TestRun)
    (pattern : SelectionConfig) (hasPrintNoTestsHook : Bool) (numTests : Nat) :
    (noMatchEvents testRunData pattern hasPrintNoTestsHook numTests :
        List (Event R)) = [] ∨
    (noMatchEvents testRunData pattern hasPrintNoTestsHook numTests :
        List (Event R)) = [Event.printNoTestsCall testRunData pattern] ∨
    (noMatchEvents testRunData pattern hasPrintNoTestsHook numTests :
        List (Event R)) =
      [Event.outLog (getNoTestsFoundMessage testRunData pattern)] := by
  simp only [noMatchEvents]
  split
  · split
    · exact Or.inr (Or.inl rfl)
    · exact Or.inr (Or.inr rfl)
  · exact Or.inl rfl

lemma benign_events_no_output {R : Type} (events : List (Event R))
    (h : ∀ e ∈ events, (∃ s, e = Event.outLog s) ∨
      ∃ d p, e = Event.printNoTestsCall d p) :
    stdoutWrites events = [] ∧ fileWrites events = [] ∧
    onCompleteCalls events = [] := by
  refine ⟨?_, ?_, ?_⟩
  · rw [stdoutWrites, List.filterMap_eq_nil_iff]
    intro e he
    rcases h e he with ⟨s, rfl⟩ | ⟨d, p, rfl⟩ <;> rfl
  · rw [fileWrites, List.filterMap_eq_nil_iff]
    intro e he
    rcases h e he with ⟨s, rfl⟩ | ⟨d, p, rfl⟩ <;> rfl
  · rw [onCompleteCalls, List.filterMap_eq_nil_iff]
    intro e he
    rcases h e he with ⟨s, rfl⟩ | ⟨d, p, rfl⟩ <;> rfl

lemma preExec_events_benign {R F : Type} (env : Env R F)
    (globalConfig : GlobalConfig) (contexts : List Context) (argv : Argv)
    (hasPrintNoTestsHook : Bool) :
    ∀ e ∈ (runDiscovery env globalConfig contexts
        (env.getTestPathPattern argv) argv).2 ++
      (noMatchEvents
        (runDiscovery env globalConfig contexts (env.getTestPathPattern argv) argv).1
        (env.getTestPathPattern argv) hasPrintNoTestsHook
        (sequencedTests env globalConfig contexts argv).length : List (Event R)),
      (∃ s, e = Event.outLog s) ∨ ∃ d p, e = Event.printNoTestsCall d p := by
  intro e he
  rcases List.mem_append.mp he with hd | hb
  · exact Or.inl ⟨noSCMMessage,
      runDiscovery_trace_outLog env globalConfig contexts
        (env.getTestPathPattern argv) argv e hd⟩
  · rcases noMatchEvents_cases
        (runDiscovery env globalConfig contexts (env.getTestPathPattern argv) argv).1
        (env.getTestPathPattern argv) hasPrintNoTestsHook
        (sequencedTests env globalConfig contexts argv).length
      with hcase | hcase | hcase <;> rw [hcase] at hb
    · cases hb
    · exact Or.inr ⟨_, _, by simpa using hb⟩
    · exact Or.inl ⟨_, by simpa using hb⟩

/-- C1 counterexample: a concrete run that reaches post-processing with
no completion callback returns `undefined`
(`options.onComplete && options.onComplete(runResults)` with an absent
callback), not the processed Aggregated Result as the claim states. -/
theorem runJest_no_callback_counterexample :
    (runJest sampleEnv sampleGlobalConfig [sampleContext] sampleArgv
        (none : Option (Nat → Nat)) false).1 = JSResult.jsUndefined ∧
    (runJest sampleEnv sampleGlobalConfig [sampleContext] sampleArgv
        (none : Option (Nat → Nat)) false).1 ≠
      JSResult.value (applyResultsProcessor sampleEnv
        (execGlobalConfig sampleEnv sampleGlobalConfig [sampleContext]
          sampleArgv).testResultsProcessor
        (execResults sampleEnv sampleGlobalConfig [sampleContext] sampleArgv)) := by
  constructor
  · rfl
  · decide

/-- C1 (amended): for every run that reaches post-processing, the
overall result is the value returned by the completion callback when one
is supplied and `undefined` when none is supplied, and `null` is never
returned outside the list-tests short-circuit. -/
theorem runJest_overall_result {R F A : Type} (env : Env R F)
    (globalConfig : GlobalConfig) (contexts : List Context) (argv : Argv)
    (onComplete : Option (R → A)) (hasPrintNoTestsHook : Bool)
    (h : argv.listTests = false) :
    (runJest env globalConfig contexts argv onComplete hasPrintNoTestsHook).1 =
      (match onComplete with
       | some f => JSResult.value (f (applyResultsProcessor env
           (execGlobalConfig env globalConfig contexts argv).testResultsProcessor
           (execResults env globalConfig contexts argv)))
       | none => JSResult.jsUndefined) ∧
    (runJest env globalConfig contexts argv onComplete hasPrintNoTestsHook).1 ≠
      JSResult.jsNull := by
  rw [runJest_run_shape env globalConfig contexts argv onComplete
    hasPrintNoTestsHook h]
  cases onComplete <;> simp [processResults, execProcessOptions]

/-- Witness for the amended C1 with a callback supplied. -/
theorem runJest_overall_result_witness :
    sampleArgv.listTests = false ∧
    ((runJest sampleEnv sampleGlobalConfig [sampleContext] sampleArgv
        (some fun n => n * 10) false).1 =
      (match (some fun n => n * 10 : Option (Nat → Nat)) with
       | some f => JSResult.value (f (applyResultsProcessor sampleEnv
           (execGlobalConfig sampleEnv sampleGlobalConfig [sampleContext]
             sampleArgv).testResultsProcessor
           (execResults sampleEnv sampleGlobalConfig [sampleContext] sampleArgv)))
       | none => JSResult.jsUndefined) ∧
    (runJest sampleEnv sampleGlobalConfig [sampleContext] sampleArgv
        (some fun n => n * 10) false).1 ≠ JSResult.jsNull) :=
  ⟨rfl, runJest_overall_result sampleEnv sampleGlobalConfig [sampleContext]
    sampleArgv (some fun n => n * 10) false rfl⟩

/-- C4: in list-tests mode the controller returns `null`, prints the
sequenced test paths as one flat JSON string list after the discovery
output (printing the literal two-character empty list when no test was
discovered), calls the completion callback, if present, exactly once
with the empty aggregated result, and never invokes the execution
backend. -/
theorem runJest_listTests_shortCircuit {R F A : Type} (env : Env R F)
    (globalConfig : GlobalConfig) (contexts : List Context) (argv : Argv)
    (onComplete : Option (R → A)) (hasPrintNoTestsHook : Bool)
    (h : argv.listTests = true) :
    (runJest env globalConfig contexts argv onComplete hasPrintNoTestsHook).1 =
      JSResult.jsNull ∧
    (runJest env globalConfig contexts argv onComplete hasPrintNoTestsHook).2 =
      (runDiscovery env globalConfig contexts (env.getTestPathPattern argv) argv).2 ++
        Event.globalConsoleLog
          (jsonStringifyStrList
            ((sequencedTests env globalConfig contexts argv).map Test.path)) ::
        (match onComplete with
         | some _ => [Event.onCompleteCall env.emptyAggregatedResult]
         | none => ([] : List (Event R))) ∧
    jsonStringifyStrList [] = "[]" ∧
    (∀ gc opts l, Event.runTestsCall gc opts l ∉
      (runJest env globalConfig contexts argv onComplete hasPrintNoTestsHook).2) ∧
    onCompleteCalls
        (runJest env globalConfig contexts argv onComplete hasPrintNoTestsHook).2 =
      (match onComplete with
       | some _ => [env.emptyAggregatedResult]
       | none => ([] : List R)) := by
  have hshape := runJest_list_shape env globalConfig contexts argv onComplete
    hasPrintNoTestsHook h
  refine ⟨?_, ?_, rfl, ?_, ?_⟩
  · rw [hshape]
  · rw [hshape]
  · intro gc opts l hmem
    rw [hshape] at hmem
    simp only [List.mem_append, List.mem_cons] at hmem
    rcases hmem with hd | hd | hd
    · exact Event.noConfusion
        (runDiscovery_trace_outLog env globalConfig contexts
          (env.getTestPathPattern argv) argv _ hd)
    · exact Event.noConfusion hd
    · cases onComplete
      · cases hd
      · rcases List.mem_singleton.mp hd with heq
        exact Event.noConfusion heq
  · rw [hshape]
    have hdisc := (benign_events_no_output
      (runDiscovery env globalConfig contexts (env.getTestPathPattern argv) argv).2
      (fun e he => Or.inl ⟨noSCMMessage,
        runDiscovery_trace_outLog env globalConfig contexts
          (env.getTestPathPattern argv) argv e he⟩)).2.2
    rw [onCompleteCalls] at hdisc ⊢
    rw [List.filterMap_append, hdisc]
    cases onComplete <;> simp

/-- Witness for C4: list-tests mode on the sample environment. -/
theorem runJest_listTests_shortCircuit_witness :
    sampleListArgv.listTests = true ∧
    ((runJest sampleEnv sampleGlobalConfig [sampleContext] sampleListArgv
        (some fun n => n * 10) false).1 = JSResult.jsNull ∧
    (runJest sampleEnv sampleGlobalConfig [sampleContext] sampleListArgv
        (some fun n => n * 10) false).2 =
      (runDiscovery sampleEnv sampleGlobalConfig [sampleContext]
        (sampleEnv.getTestPathPattern sampleListArgv) sampleListArgv).2 ++
        Event.globalConsoleLog
          (jsonStringifyStrList
            ((sequencedTests sampleEnv sampleGlobalConfig [sampleContext]
              sampleListArgv).map Test.path)) ::
        (match (some fun n => n * 10 : Option (Nat → Nat)) with
         | some _ => [Event.onCompleteCall sampleEnv.emptyAggregatedResult]
         | none => ([] : List (Event Nat))) ∧
    jsonStringifyStrList [] = "[]" ∧
    (∀ gc opts l, Event.runTestsCall gc opts l ∉
      (runJest sampleEnv sampleGlobalConfig [sampleContext] sampleListArgv
        (some fun n => n * 10) false).2) ∧
    onCompleteCalls
        (runJest sampleEnv sampleGlobalConfig [sampleContext] sampleListArgv
          (some fun n => n * 10) false).2 =
      (match (some fun n => n * 10 : Option (Nat → Nat)) with
       | some _ => [sampleEnv.emptyAggregatedResult]
       | none => ([] : List Nat))) :=
  ⟨rfl, runJest_listTests_shortCircuit sampleEnv sampleGlobalConfig
    [sampleContext] sampleListArgv (some fun n => n * 10) false rfl⟩

/-- C5: in a post-processing invocation with the JSON flag set and no
output file, the exact serialized formatted result is the only string
written to the output stream and no file is written; with an output file
path, the serialized text goes to the path resolved against the current
working directory and the only stream write reports the relative
path. -/
theorem processResults_json_output {R F A : Type} (env : Env R F) (r : R)
    (options : ProcessOptions R A) (hjson : options.isJSON = true) :
    (options.outputFile = none →
      stdoutWrites (processResults env r options).2 =
        [env.stringifyFormatted (env.formatTestResults
          (applyResultsProcessor env options.testResultsProcessor r))] ∧
      fileWrites (processResults env r options).2 = []) ∧
    (∀ f, options.outputFile = some f → f ≠ "" →
      fileWrites (processResults env r options).2 =
        [(env.pathResolve env.cwd f,
          env.stringifyFormatted (env.formatTestResults
            (applyResultsProcessor env options.testResultsProcessor r)))] ∧
      stdoutWrites (processResults env r options).2 =
        ["Test results written to: " ++
          env.pathRelative env.cwd (env.pathResolve env.cwd f) ++ "\n"]) := by
  constructor
  · intro hfile
    cases hoc : options.onComplete <;>
      simp [processResults, hjson, hfile, hoc, jsTruthyOptStr, stdoutWrites,
        fileWrites]
  · intro f hfile hne
    have htruthy : jsTruthyOptStr (some f) = true := by
      simpa [jsTruthyOptStr] using hne
    cases hoc : options.onComplete <;>
      simp [processResults, hjson, hfile, hne, hoc, htruthy, stdoutWrites,
        fileWrites]

/-- Witness for C5: JSON mode with no output file on the sample
environment. -/
theorem processResults_json_output_witness :
    (ProcessOptions.mk true none none none : ProcessOptions Nat Nat).isJSON =
      true ∧
    (((ProcessOptions.mk true none none none :
        ProcessOptions Nat Nat).outputFile = none →
      stdoutWrites (processResults sampleEnv 7
          (ProcessOptions.mk true none none none : ProcessOptions Nat Nat)).2 =
        [sampleEnv.stringifyFormatted (sampleEnv.formatTestResults
          (applyResultsProcessor sampleEnv none 7))] ∧
      fileWrites (processResults sampleEnv 7
          (ProcessOptions.mk true none none none : ProcessOptions Nat Nat)).2 =
        []) ∧
    (∀ f, (ProcessOptions.mk true none none none :
        ProcessOptions Nat Nat).outputFile = some f → f ≠ "" →
      fileWrites (processResults sampleEnv 7
          (ProcessOptions.mk true none none none : ProcessOptions Nat Nat)).2 =
        [(sampleEnv.pathResolve sampleEnv.cwd f,
          sampleEnv.stringifyFormatted (sampleEnv.formatTestResults
            (applyResultsProcessor sampleEnv none 7)))] ∧
      stdoutWrites (processResults sampleEnv 7
          (ProcessOptions.mk true none none none : ProcessOptions Nat Nat)).2 =
        ["Test results written to: " ++
          sampleEnv.pathRelative sampleEnv.cwd
            (sampleEnv.pathResolve sampleEnv.cwd f) ++ "\n"])) :=
  ⟨rfl, processResults_json_output sampleEnv 7
    (ProcessOptions.mk true none none none) rfl⟩

/-- C7: when exactly one test is sequenced, verbosity is unset, and the
run is not silenced, the configuration in force at execution is a fresh
full copy of the global configuration with `verbose` forced to true, and
the execution backend is invoked with that copy. -/
theorem runJest_single_test_verbose {R F A : Type} (env : Env R F)
    (globalConfig : GlobalConfig) (contexts : List Context) (argv : Argv)
    (onComplete : Option (R → A)) (hasPrintNoTestsHook : Bool) (t : Test)
    (h : argv.listTests = false)
    (hone : sequencedTests env globalConfig contexts argv = [t])
    (hverb : globalConfig.verbose = none)
    (hsil : globalConfig.silent ≠ some true) :
    execGlobalConfig env globalConfig contexts argv =
      { globalConfig with verbose := some true } ∧
    Event.runTestsCall { globalConfig with verbose := some true }
        (execRunnerOptions env argv) [t] ∈
      (runJest env globalConfig contexts argv onComplete hasPrintNoTestsHook).2 := by
  have hcfg : execGlobalConfig env globalConfig contexts argv =
      { globalConfig with verbose := some true } := by
    rw [execGlobalConfig, hone]
    simp [verboseAdjustedConfig, hsil, hverb]
  refine ⟨hcfg, ?_⟩
  rw [runJest_run_shape env globalConfig contexts argv onComplete
    hasPrintNoTestsHook h]
  rw [← hcfg, ← hone]
  simp

/-- Witness for C7 on the sample single-test run. -/
theorem runJest_single_test_verbose_witness :
    (sampleArgv.listTests = false ∧
      sequencedTests sampleEnv sampleGlobalConfig [sampleContext] sampleArgv =
        [sampleTest] ∧
      sampleGlobalConfig.verbose = none ∧
      sampleGlobalConfig.silent ≠ some true) ∧
    (execGlobalConfig sampleEnv sampleGlobalConfig [sampleContext] sampleArgv =
      { sampleGlobalConfig with verbose := some true } ∧
    Event.runTestsCall { sampleGlobalConfig with verbose := some true }
        (execRunnerOptions sampleEnv sampleArgv) [sampleTest] ∈
      (runJest sampleEnv sampleGlobalConfig [sampleContext] sampleArgv
        (some fun n => n * 10) false).2) :=
  ⟨⟨rfl, rfl, rfl, by decide⟩,
    runJest_single_test_verbose sampleEnv sampleGlobalConfig [sampleContext]
      sampleArgv (some fun n => n * 10) false sampleTest rfl rfl rfl (by decide)⟩

/-- C10: the single-test verbose flip requires `verbose !== false` as
well: with exactly one sequenced test but `verbose` explicitly false,
the global configuration is left unchanged even though `silent` is
unset, and the backend is invoked with the original configuration. -/
theorem runJest_verbose_false_no_flip {R F A : Type} (env : Env R F)
    (globalConfig : GlobalConfig) (contexts : List Context) (argv : Argv)
    (onComplete : Option (R → A)) (hasPrintNoTestsHook : Bool) (t : Test)
    (h : argv.listTests = false)
    (hone : sequencedTests env globalConfig contexts argv = [t])
    (hverb : globalConfig.verbose = some false) :
    execGlobalConfig env globalConfig contexts argv = globalConfig ∧
    Event.runTestsCall globalConfig (execRunnerOptions env argv) [t] ∈
      (runJest env globalConfig contexts argv onComplete hasPrintNoTestsHook).2 := by
  have hcfg : execGlobalConfig env globalConfig contexts argv = globalConfig := by
    rw [execGlobalConfig, hone]
    simp [verboseAdjustedConfig, hverb]
  refine ⟨hcfg, ?_⟩
  rw [runJest_run_shape env globalConfig contexts argv onComplete
    hasPrintNoTestsHook h]
  simp only [List.mem_append, List.mem_cons]
  exact Or.inr (Or.inl (by rw [hcfg, hone]))

/-- Witness for C10: verbose explicitly false, silent unset, one test. -/
theorem runJest_verbose_false_no_flip_witness :
    (sampleArgv.listTests = false ∧
      sequencedTests sampleEnv
        { sampleGlobalConfig with verbose := some false } [sampleContext]
        sampleArgv = [sampleTest] ∧
      ({ sampleGlobalConfig with verbose := some false } :
        GlobalConfig).verbose = some false) ∧
    (execGlobalConfig sampleEnv { sampleGlobalConfig with verbose := some false }
        [sampleContext] sampleArgv =
      { sampleGlobalConfig with verbose := some false } ∧
    Event.runTestsCall { sampleGlobalConfig with verbose := some false }
        (execRunnerOptions sampleEnv sampleArgv) [sampleTest] ∈
      (runJest sampleEnv { sampleGlobalConfig with verbose := some false }
        [sampleContext] sampleArgv (some fun n => n * 10) false).2) :=
  ⟨⟨rfl, rfl, rfl⟩,
    runJest_verbose_false_no_flip sampleEnv
      { sampleGlobalConfig with verbose := some false } [sampleContext]
      sampleArgv (some fun n => n * 10) false sampleTest rfl rfl rfl⟩

/-- C8: every run reaching execution persists into the sequencer exactly
the ordered test list that was passed to the backend together with
exactly the aggregated result the backend returned, immediately after
execution and before any post-processing output: no stream write, file
write or completion call precedes it except the diagnostics-only
discovery and no-match events. -/
theorem runJest_persist_roundtrip {R F A : Type} (env : Env R F)
    (globalConfig : GlobalConfig) (contexts : List Context) (argv : Argv)
    (onComplete : Option (R → A)) (hasPrintNoTestsHook : Bool)
    (h : argv.listTests = false) :
    ∃ pre,
      (runJest env globalConfig contexts argv onComplete hasPrintNoTestsHook).2 =
        pre ++
          Event.runTestsCall (execGlobalConfig env globalConfig contexts argv)
            (execRunnerOptions env argv)
            (sequencedTests env globalConfig contexts argv) ::
          Event.cacheResultsCall (sequencedTests env globalConfig contexts argv)
            (execResults env globalConfig contexts argv) ::
          (processResults env (execResults env globalConfig contexts argv)
            (execProcessOptions env globalConfig contexts argv onComplete)).2 ∧
      execResults env globalConfig contexts argv =
        env.runTests (execGlobalConfig env globalConfig contexts argv)
          (execRunnerOptions env argv)
          (sequencedTests env globalConfig contexts argv) ∧
      stdoutWrites pre = [] ∧ fileWrites pre = [] ∧ onCompleteCalls pre = [] := by
  refine ⟨(runDiscovery env globalConfig contexts
      (env.getTestPathPattern argv) argv).2 ++
    noMatchEvents
      (runDiscovery env globalConfig contexts (env.getTestPathPattern argv) argv).1
      (env.getTestPathPattern argv) hasPrintNoTestsHook
      (sequencedTests env globalConfig contexts argv).length, ?_, rfl, ?_⟩
  · rw [runJest_run_shape env globalConfig contexts argv onComplete
      hasPrintNoTestsHook h, List.append_assoc]
  · exact benign_events_no_output _
      (preExec_events_benign env globalConfig contexts argv hasPrintNoTestsHook)

/-- Witness for C8 on the sample run. -/
theorem runJest_persist_roundtrip_witness :
    sampleArgv.listTests = false ∧
    (∃ pre,
      (runJest sampleEnv sampleGlobalConfig [sampleContext] sampleArgv
          (some fun n => n * 10) false).2 =
        pre ++
          Event.runTestsCall
            (execGlobalConfig sampleEnv sampleGlobalConfig [sampleContext]
              sampleArgv)
            (execRunnerOptions sampleEnv sampleArgv)
            (sequencedTests sampleEnv sampleGlobalConfig [sampleContext]
              sampleArgv) ::
          Event.cacheResultsCall
            (sequencedTests sampleEnv sampleGlobalConfig [sampleContext]
              sampleArgv)
            (execResults sampleEnv sampleGlobalConfig [sampleContext]
              sampleArgv) ::
          (processResults sampleEnv
            (execResults sampleEnv sampleGlobalConfig [sampleContext] sampleArgv)
            (execProcessOptions sampleEnv sampleGlobalConfig [sampleContext]
              sampleArgv (some fun n => n * 10))).2 ∧
      execResults sampleEnv sampleGlobalConfig [sampleContext] sampleArgv =
        sampleEnv.runTests
          (execGlobalConfig sampleEnv sampleGlobalConfig [sampleContext]
            sampleArgv)
          (execRunnerOptions sampleEnv sampleArgv)
          (sequencedTests sampleEnv sampleGlobalConfig [sampleContext]
            sampleArgv) ∧
      stdoutWrites pre = [] ∧ fileWrites pre = [] ∧ onCompleteCalls pre = []) :=
  ⟨rfl, runJest_persist_roundtrip sampleEnv sampleGlobalConfig [sampleContext]
    sampleArgv (some fun n => n * 10) false rfl⟩

end RunJestModel
